import Mathlib

/-!
Verification of the AnalisadorSintatico repository: a shallow embedding of
`lexer.py` (`AnalisadorLexico.analisar_tokens`) and `an_parser.py`
(class `Analisador` and the AST class `No`), together with theorems settling
the frozen claims about the spec.

The lexer builds one Python regex alternating all token patterns in a fixed
order and iterates `re.finditer` over the source.  `finditer` semantics:
scan left to right; at each position try the alternatives in list order and
commit to the first one that matches; if none matches, silently advance one
character (there is no error path).  The embedding below reproduces each
pattern's matching behaviour, including the `\b` word boundaries, greedy
`\d+` / `\d*` with backtracking against the trailing `\b`, and the lazy
single-line body of `/\*.*?\*/`.  Character classes are modelled at ASCII
scope (all inputs in the claims are ASCII).
-/

namespace AnalisadorSintatico

/-- A token as produced by the Python lexer: the pair `(kind, text)`. -/
abbrev Token := String × String

/-- Python regex word characters `\w` at ASCII scope: `[a-zA-Z0-9_]`. -/
def isWordChar (c : Char) : Bool :=
  c.isAlpha || c.isDigit || c == '_'

/-- Python regex whitespace `\s` at ASCII scope: space, tab, newline,
carriage return, form feed, vertical tab. -/
def isSpaceChar (c : Char) : Bool :=
  c == ' ' || c == '\t' || c == '\n' || c == '\r' || c == '\x0b' || c == '\x0c'

/-- `\b` on the left of a pattern that starts with a word character:
holds at the start of the string or after a non-word character.
`prev` is the character immediately before the current scan position. -/
def leftWordBoundary : Option Char → Bool
  | none => true
  | some c => !isWordChar c

/-- `\b` after a word character: holds at the end of the string or before a
non-word character. -/
def nonWordOrEnd : List Char → Bool
  | [] => true
  | c :: _ => isWordChar c == false

/-- Whether the remaining input starts with a word character. -/
def wordStart : List Char → Bool
  | [] => false
  | c :: _ => isWordChar c

/-- Literal prefix test: `matchLit kw s` holds when `kw` is a prefix of `s`. -/
def matchLit : List Char → List Char → Bool
  | [], _ => true
  | _ :: _, [] => false
  | k :: ks, c :: cs => k == c && matchLit ks cs

/-- A keyword pattern `\bkw\b` (all the keywords start and end with a
letter, so the two `\b` are as below). -/
def matchKeyword (kw : List Char) (prev : Option Char) (s : List Char) :
    Option (List Char) :=
  if leftWordBoundary prev && matchLit kw s && nonWordOrEnd (s.drop kw.length) then
    some kw
  else
    none

/-- The pattern `\b[a-zA-Z_][a-zA-Z0-9_]*\b`: a greedy word run starting
with a letter or underscore (the trailing `\b` is then automatic). -/
def matchIdentifier (prev : Option Char) (s : List Char) : Option (List Char) :=
  match s with
  | [] => none
  | c :: _ =>
    if (c.isAlpha || c == '_') && leftWordBoundary prev then
      some (s.takeWhile isWordChar)
    else
      none

/-- The pattern `\b\d+(\.\d*)?\b` with the Python engine's backtracking:
`\d+` takes the maximal digit run `d`; the optional group is tried greedily
and shrunk until the trailing `\b` is satisfied (a match of shape `d.` is
kept exactly when the character after the dot is a word character). -/
def matchNumber (prev : Option Char) (s : List Char) : Option (List Char) :=
  if leftWordBoundary prev then
    let d := s.takeWhile Char.isDigit
    if d.isEmpty then
      none
    else
      match s.drop d.length with
      | '.' :: rest2 =>
        let frac := rest2.takeWhile Char.isDigit
        if frac.isEmpty then
          if wordStart rest2 then some (d ++ ['.']) else some d
        else
          if nonWordOrEnd (rest2.drop frac.length) then some (d ++ '.' :: frac)
          else some (d ++ ['.'])
      | rest1 =>
        if nonWordOrEnd rest1 then some d else none
  else
    none

/-- Lazy body of `/\*.*?\*/` after the opening `/*`: at each step first try
to close with `*/`, otherwise consume one non-newline character (`.` does
not match a line break). Returns the consumed characters including `*/`. -/
def scanCom : List Char → Option (List Char)
  | '*' :: '/' :: _ => some ['*', '/']
  | c :: rest => if c == '\n' then none else (scanCom rest).map (fun l => c :: l)
  | [] => none

/-- The pattern `/\*.*?\*/` (single-line block comment). -/
def matchComment (s : List Char) : Option (List Char) :=
  match s with
  | '/' :: '*' :: rest => (scanCom rest).map (fun l => '/' :: '*' :: l)
  | _ => none

/-- A single-character pattern with no word boundary. -/
def matchSingle (c : Char) (s : List Char) : Option (List Char) :=
  match s with
  | d :: _ => if d == c then some [d] else none
  | [] => none

/-- A one-of-two-characters pattern such as `[+-]` or `[*/]`. -/
def matchTwo (a b : Char) (s : List Char) : Option (List Char) :=
  match s with
  | d :: _ => if d == a || d == b then some [d] else none
  | [] => none

/-- The pattern `[<>]=?|==|!=` (inner alternation tried left to right,
`=?` greedy). -/
def matchRelOp (s : List Char) : Option (List Char) :=
  match s with
  | c :: rest =>
    if c == '<' || c == '>' then
      match rest with
      | '=' :: _ => some [c, '=']
      | _ => some [c]
    else if c == '=' then
      match rest with
      | '=' :: _ => some ['=', '=']
      | _ => none
    else if c == '!' then
      match rest with
      | '=' :: _ => some ['!', '=']
      | _ => none
    else
      none
  | [] => none

/-- The pattern `\s+`: a maximal nonempty whitespace run. -/
def matchWhitespace (s : List Char) : Option (List Char) :=
  let w := s.takeWhile isSpaceChar
  if w.isEmpty then none else some w

/-- Tag a successful match with its token kind. -/
def tagM (k : String) (r : Option (List Char)) : Option (String × List Char) :=
  r.map (fun m => (k, m))

/-- First-match-wins choice between two alternatives of the alternation. -/
def ob (a b : Option (String × List Char)) : Option (String × List Char) :=
  match a with
  | some x => some x
  | none => b

/-- One attempt of the combined alternation at the current position, trying
the alternatives in exactly the order of `especificacoes_tokens` in
`lexer.py`; the first alternative that matches wins. -/
def tryMatch (prev : Option Char) (s : List Char) : Option (String × List Char) :=
  ob (tagM "PROGRAM" (matchKeyword "programa".toList prev s)) (
  ob (tagM "VAR" (matchKeyword "var".toList prev s)) (
  ob (tagM "INT" (matchKeyword "int".toList prev s)) (
  ob (tagM "FLOAT" (matchKeyword "float".toList prev s)) (
  ob (tagM "BOOL" (matchKeyword "bool".toList prev s)) (
  ob (tagM "IF" (matchKeyword "if".toList prev s)) (
  ob (tagM "ELSE" (matchKeyword "else".toList prev s)) (
  ob (tagM "WHILE" (matchKeyword "while".toList prev s)) (
  ob (tagM "PRINT" (matchKeyword "print".toList prev s)) (
  ob (tagM "TRUE" (matchKeyword "true".toList prev s)) (
  ob (tagM "FALSE" (matchKeyword "false".toList prev s)) (
  ob (tagM "IDENTIFIER" (matchIdentifier prev s)) (
  ob (tagM "NUMBER" (matchNumber prev s)) (
  ob (tagM "SEMICOLON" (matchSingle ';' s)) (
  ob (tagM "COLON" (matchSingle ':' s)) (
  ob (tagM "LBRACE" (matchSingle '\x7b' s)) (
  ob (tagM "RBRACE" (matchSingle '\x7d' s)) (
  ob (tagM "MULTILINE_COMMENT" (matchComment s)) (
  ob (tagM "LPAREN" (matchSingle '(' s)) (
  ob (tagM "RPAREN" (matchSingle ')' s)) (
  ob (tagM "ADD_OP" (matchTwo '+' '-' s)) (
  ob (tagM "MUL_OP" (matchTwo '*' '/' s)) (
  ob (tagM "REL_OP" (matchRelOp s)) (
  ob (tagM "ASSIGN" (matchSingle '=' s)) (
  tagM "WHITESPACE" (matchWhitespace s)))))))))))))))))))))))))

/-- The `re.finditer` loop of `AnalisadorLexico.analisar_tokens`: at each
position take the first alternative that matches and emit the token unless
its kind is `WHITESPACE`; if no alternative matches, skip one character.
`fuel` only bounds the recursion (each step consumes at least one
character, so `fuel = length of the input` always suffices); `prev` is the
character before the current position, for the `\b` checks. -/
def scan : Nat → Option Char → List Char → List Token
  | 0, _, _ => []
  | Nat.succ _, _, [] => []
  | Nat.succ fuel, prev, c :: rest =>
    match tryMatch prev (c :: rest) with
    | none => scan fuel (some c) rest
    | some (kind, m) =>
      if kind == "WHITESPACE" then
        scan fuel (some (m.getLastD c)) (List.drop m.length (c :: rest))
      else
        (kind, String.mk m) :: scan fuel (some (m.getLastD c)) (List.drop m.length (c :: rest))

/-- `AnalisadorLexico.analisar_tokens`: the full token sequence of a source
text.  The Python method never fails: unmatched characters are skipped by
`re.finditer` and only `WHITESPACE` matches are withheld from the output. -/
def analisar_tokens (codigo_fonte : String) : List Token :=
  scan codigo_fonte.toList.length none codigo_fonte.toList

/-!
The parser of `an_parser.py`.  `No` is the AST class: a `tipo` tag, a list
of children (`filhos`) and an optional leaf payload (`folha`).  In Python
the children list can literally contain `None` (an `if` without `else`
stores `None` as its third child, and the expression productions can pass
the `None` returned by a fall-through `fator` into a child slot), so
`filhos` is a list of `Option No`.  `folha` is either a plain string or the
`(name, type)` pair stored by a variable declaration.

`Analisador` holds the token list and the one-token lookahead
`token_atual`; the embedding threads that state explicitly.  The Python
methods can terminate in three abnormal ways, modelled by `PError`:
`SyntaxError` raised by `combinar`, `TypeError` from subscripting the
`None` lookahead (`self.token_atual[0]` after the tokens ran out), and
`IndexError` from `self.tokens.pop(0)` in `__init__` when the list is
empty.  `fuelOut` is not a Python behaviour: it is the cut-off of the
fuel parameter that makes the recursive descent structural (every claim is
settled at a concrete input with ample fuel).
-/

/-- The payload `folha` of a `No`: a string, or the `(identifier, type)`
pair of a `DECL_VAR` node. -/
inductive Folha where
  | str (s : String) : Folha
  | pair (s t : String) : Folha
deriving DecidableEq, Repr

/-- The AST class `Nó` (written `No` here: Lean rejects the accented identifier) of `an_parser.py`: tag, children (which may contain
Python `None`), optional payload. -/
inductive No where
  | mk (tipo : String) (filhos : List (Option No)) (folha : Option Folha) : No

/-- Python exceptions an `Analisador` run can raise, plus the embedding's
fuel cut-off. -/
inductive PError where
  | syntaxError (tok : Token) : PError
  | typeError : PError
  | indexError : PError
  | fuelOut : PError
deriving DecidableEq, Repr

/-- The mutable state of an `Analisador`: the remaining token list (the
same object the caller passed in — `__init__` aliases it) and the
lookahead `token_atual` (`none` models Python `None`). -/
structure PState where
  tokens : List Token
  token_atual : Option Token
deriving DecidableEq, Repr

/-- A parser computation: explicit state passing, raising `PError`. -/
abbrev Parser (α : Type) : Type := PState → Except PError (α × PState)

/-- Sequencing of two parser computations. -/
def pBind {α β : Type} (p : Parser α) (f : α → Parser β) : Parser β := fun st =>
  match p st with
  | Except.error e => Except.error e
  | Except.ok (a, st') => f a st'

/-- A computation that returns a value and leaves the state unchanged. -/
def pPure {α : Type} (a : α) : Parser α := fun st => Except.ok (a, st)

/-- A computation that raises. -/
def pFail {α : Type} (e : PError) : Parser α := fun _ => Except.error e

/-- Every inspection of `self.token_atual[0]` in the Python source:
subscripting the `None` lookahead raises `TypeError`; otherwise the
current token is handed to the continuation with the state unchanged. -/
def withCurrent {α : Type} (f : Token → Parser α) : Parser α := fun st =>
  match st.token_atual with
  | none => Except.error PError.typeError
  | some tok => f tok st

/-- `Analisador.combinar`: if the current token's kind is one of the
expected kinds, return it and advance the lookahead (popping the next
token from the front of the list, or `None` when the list is empty);
otherwise raise `SyntaxError`.  Checking `self.token_atual[0]` when the
lookahead is `None` raises `TypeError`. -/
def combinar (tipos_esperados : List String) : Parser Token :=
  withCurrent fun tok => fun st =>
    if tipos_esperados.contains tok.1 then
      match st.tokens with
      | [] => Except.ok (tok, { tokens := [], token_atual := none })
      | t :: ts => Except.ok (tok, { tokens := ts, token_atual := some t })
    else
      Except.error (PError.syntaxError tok)

/-- Body of `Analisador.fator` (the recursive `expr` call abstracted):
identifier, number, parenthesized expression, `true` or `false`; any other
current token falls through every branch and the Python method returns
`None` — hence the `pPure none` with no error. -/
def fator_body (exprP : Parser (Option No)) : Parser (Option No) :=
  withCurrent fun tok =>
    if tok.1 == "IDENTIFIER" then
      pBind (combinar ["IDENTIFIER"]) fun t =>
        pPure (some (No.mk "IDENTIFICADOR" [] (some (Folha.str t.2))))
    else if tok.1 == "NUMBER" then
      pBind (combinar ["NUMBER"]) fun t =>
        pPure (some (No.mk "NUMERO" [] (some (Folha.str t.2))))
    else if tok.1 == "LPAREN" then
      pBind (combinar ["LPAREN"]) fun _ =>
      pBind exprP fun e =>
      pBind (combinar ["RPAREN"]) fun _ =>
      pPure e
    else if tok.1 == "TRUE" then
      pBind (combinar ["TRUE"]) fun t =>
        pPure (some (No.mk "BOOLEANO" [] (some (Folha.str t.2))))
    else if tok.1 == "FALSE" then
      pBind (combinar ["FALSE"]) fun t =>
        pPure (some (No.mk "BOOLEANO" [] (some (Folha.str t.2))))
    else
      pPure none

/-- The `while self.token_atual[0] == opKind` loop shared by `termo`,
`expr_simples` and `expr`: as long as the current token has the operator
kind of this tier, consume it, parse the next operand with `subP`, and
fold the two operands into an `EXPR` node on the left. -/
def binop_loop_body (opKind : String) (subP : Parser (Option No))
    (selfP : Option No → Parser (Option No)) (esquerda : Option No) :
    Parser (Option No) :=
  withCurrent fun tok =>
    if tok.1 == opKind then
      pBind (combinar [opKind]) fun op =>
      pBind subP fun direita =>
      selfP (some (No.mk "EXPR" [esquerda, direita] (some (Folha.str op.2))))
    else
      pPure esquerda

/-- Body of `Analisador.atribuicao`. -/
def atribuicao_body (exprP : Parser (Option No)) : Parser No :=
  pBind (combinar ["IDENTIFIER"]) fun identificador =>
  pBind (combinar ["ASSIGN"]) fun _ =>
  pBind exprP fun e =>
  pBind (combinar ["SEMICOLON"]) fun _ =>
  pPure (No.mk "ATRIBUICAO" [e] (some (Folha.str identificador.2)))

/-- Body of `Analisador.decl_if`: note that the `DECL_IF` node of an `if`
without `else` carries Python `None` as its third child. -/
def decl_if_body (exprP : Parser (Option No)) (declsP : Parser No) : Parser No :=
  pBind (combinar ["IF"]) fun _ =>
  pBind (combinar ["LPAREN"]) fun _ =>
  pBind exprP fun condicao =>
  pBind (combinar ["RPAREN"]) fun _ =>
  pBind (combinar ["LBRACE"]) fun _ =>
  pBind declsP fun declsV =>
  pBind (combinar ["RBRACE"]) fun _ =>
  withCurrent fun tok =>
    if tok.1 == "ELSE" then
      pBind (combinar ["ELSE"]) fun _ =>
      pBind (combinar ["LBRACE"]) fun _ =>
      pBind declsP fun declsF =>
      pBind (combinar ["RBRACE"]) fun _ =>
      pPure (No.mk "DECL_IF" [condicao, some declsV, some declsF] none)
    else
      pPure (No.mk "DECL_IF" [condicao, some declsV, none] none)

/-- Body of `Analisador.decl_while`. -/
def decl_while_body (exprP : Parser (Option No)) (declsP : Parser No) : Parser No :=
  pBind (combinar ["WHILE"]) fun _ =>
  pBind (combinar ["LPAREN"]) fun _ =>
  pBind exprP fun condicao =>
  pBind (combinar ["RPAREN"]) fun _ =>
  pBind (combinar ["LBRACE"]) fun _ =>
  pBind declsP fun declsLoop =>
  pBind (combinar ["RBRACE"]) fun _ =>
  pPure (No.mk "DECL_WHILE" [condicao, some declsLoop] none)

/-- Body of `Analisador.decl_print`. -/
def decl_print_body (exprP : Parser (Option No)) : Parser No :=
  pBind (combinar ["PRINT"]) fun _ =>
  pBind (combinar ["LPAREN"]) fun _ =>
  pBind exprP fun e =>
  pBind (combinar ["RPAREN"]) fun _ =>
  pBind (combinar ["SEMICOLON"]) fun _ =>
  pPure (No.mk "DECL_PRINT" [e] none)

/-- The `while self.token_atual[0] == "VAR"` loop of `Analisador.secao_var`,
accumulating `DECL_VAR` nodes in Python append order. -/
def secao_var_loop_body
    (selfP : List (Option No) → Parser (List (Option No)))
    (nos : List (Option No)) : Parser (List (Option No)) :=
  withCurrent fun tok =>
    if tok.1 == "VAR" then
      pBind (combinar ["VAR"]) fun _ =>
      pBind (combinar ["IDENTIFIER"]) fun identificador =>
      pBind (combinar ["COLON"]) fun _ =>
      pBind (combinar ["INT", "FLOAT", "BOOL"]) fun tipo =>
      pBind (combinar ["SEMICOLON"]) fun _ =>
      selfP (nos ++ [some (No.mk "DECL_VAR" [] (some (Folha.pair identificador.2 tipo.1)))])
    else
      pPure nos

/-- The `while self.token_atual[0] in ("IDENTIFIER", "IF", "WHILE", "PRINT")`
loop of `Analisador.declaracoes`, dispatching on the current token's kind. -/
def declaracoes_loop_body (atrP ifP whP prP : Parser No)
    (selfP : List (Option No) → Parser (List (Option No)))
    (nos : List (Option No)) : Parser (List (Option No)) :=
  withCurrent fun tok =>
    if tok.1 == "IDENTIFIER" then
      pBind atrP fun n => selfP (nos ++ [some n])
    else if tok.1 == "IF" then
      pBind ifP fun n => selfP (nos ++ [some n])
    else if tok.1 == "WHILE" then
      pBind whP fun n => selfP (nos ++ [some n])
    else if tok.1 == "PRINT" then
      pBind prP fun n => selfP (nos ++ [some n])
    else
      pPure nos

/-- Body of `Analisador.programa`. -/
def programa_body (secP declsP : Parser No) : Parser No :=
  pBind (combinar ["PROGRAM"]) fun _ =>
  pBind (combinar ["IDENTIFIER"]) fun identificador =>
  pBind (combinar ["LBRACE"]) fun _ =>
  pBind secP fun sv =>
  pBind declsP fun ds =>
  pBind (combinar ["RBRACE"]) fun _ =>
  pPure (No.mk "PROGRAMA" [some sv, some ds] (some (Folha.str identificador.2)))

mutual

/-- `Analisador.fator`. -/
def fator : Nat → Parser (Option No)
  | 0 => pFail PError.fuelOut
  | Nat.succ fuel => fator_body (expr fuel)

/-- The operator loop of `Analisador.termo`. -/
def termo_loop : Nat → Option No → Parser (Option No)
  | 0, _ => pFail PError.fuelOut
  | Nat.succ fuel, esquerda => binop_loop_body "MUL_OP" (fator fuel) (termo_loop fuel) esquerda

/-- `Analisador.termo`. -/
def termo : Nat → Parser (Option No)
  | 0 => pFail PError.fuelOut
  | Nat.succ fuel => pBind (fator fuel) (termo_loop fuel)

/-- The operator loop of `Analisador.expr_simples`. -/
def expr_simples_loop : Nat → Option No → Parser (Option No)
  | 0, _ => pFail PError.fuelOut
  | Nat.succ fuel, esquerda => binop_loop_body "ADD_OP" (termo fuel) (expr_simples_loop fuel) esquerda

/-- `Analisador.expr_simples`. -/
def expr_simples : Nat → Parser (Option No)
  | 0 => pFail PError.fuelOut
  | Nat.succ fuel => pBind (termo fuel) (expr_simples_loop fuel)

/-- The operator loop of `Analisador.expr`. -/
def expr_loop : Nat → Option No → Parser (Option No)
  | 0, _ => pFail PError.fuelOut
  | Nat.succ fuel, esquerda => binop_loop_body "REL_OP" (expr_simples fuel) (expr_loop fuel) esquerda

/-- `Analisador.expr`. -/
def expr : Nat → Parser (Option No)
  | 0 => pFail PError.fuelOut
  | Nat.succ fuel => pBind (expr_simples fuel) (expr_loop fuel)

/-- `Analisador.atribuicao`. -/
def atribuicao : Nat → Parser No
  | 0 => pFail PError.fuelOut
  | Nat.succ fuel => atribuicao_body (expr fuel)

/-- `Analisador.decl_if`. -/
def decl_if : Nat → Parser No
  | 0 => pFail PError.fuelOut
  | Nat.succ fuel => decl_if_body (expr fuel) (declaracoes fuel)

/-- `Analisador.decl_while`. -/
def decl_while : Nat → Parser No
  | 0 => pFail PError.fuelOut
  | Nat.succ fuel => decl_while_body (expr fuel) (declaracoes fuel)

/-- `Analisador.decl_print`. -/
def decl_print : Nat → Parser No
  | 0 => pFail PError.fuelOut
  | Nat.succ fuel => decl_print_body (expr fuel)

/-- The statement loop of `Analisador.declaracoes`. -/
def declaracoes_loop : Nat → List (Option No) → Parser (List (Option No))
  | 0, _ => pFail PError.fuelOut
  | Nat.succ fuel, nos =>
    declaracoes_loop_body (atribuicao fuel) (decl_if fuel) (decl_while fuel)
      (decl_print fuel) (declaracoes_loop fuel) nos

/-- `Analisador.declaracoes`. -/
def declaracoes : Nat → Parser No
  | 0 => pFail PError.fuelOut
  | Nat.succ fuel =>
    pBind (declaracoes_loop fuel []) fun nos => pPure (No.mk "DECLARACOES" nos none)

/-- The declaration loop of `Analisador.secao_var`. -/
def secao_var_loop : Nat → List (Option No) → Parser (List (Option No))
  | 0, _ => pFail PError.fuelOut
  | Nat.succ fuel, nos => secao_var_loop_body (secao_var_loop fuel) nos

/-- `Analisador.secao_var`. -/
def secao_var : Nat → Parser No
  | 0 => pFail PError.fuelOut
  | Nat.succ fuel =>
    pBind (secao_var_loop fuel []) fun nos => pPure (No.mk "SECAO_VAR" nos none)

/-- `Analisador.programa`. -/
def programa : Nat → Parser No
  | 0 => pFail PError.fuelOut
  | Nat.succ fuel => programa_body (secao_var fuel) (declaracoes fuel)

end

/-- `Analisador.__init__`: `self.tokens = tokens` aliases the caller's
list, and `self.token_atual = self.tokens.pop(0)` pops its first element —
raising `IndexError` when the list is empty. -/
def analisador_init (tokens : List Token) : Except PError PState :=
  match tokens with
  | [] => Except.error PError.indexError
  | t :: ts => Except.ok { tokens := ts, token_atual := some t }

/-- Constructing an `Analisador` on `tokens` and calling `analisar`
(which runs `programa`).  On success the returned state is the final
content of the caller's aliased token list and lookahead. -/
def analisar (tokens : List Token) (fuel : Nat) : Except PError (No × PState) :=
  match analisador_init tokens with
  | Except.error e => Except.error e
  | Except.ok st => programa fuel st

/-- Constructing an `Analisador` on `tokens` and running the `expr`
production directly (parsing the tokens as an expression). -/
def parse_expr (tokens : List Token) (fuel : Nat) : Except PError (Option No × PState) :=
  match analisador_init tokens with
  | Except.error e => Except.error e
  | Except.ok st => expr fuel st

/-- The frame property of a parser computation: whenever it succeeds, the
final content of the (aliased, destructively popped) token list is a
suffix of its initial content. -/
def Consumes {α : Type} (p : Parser α) : Prop :=
  ∀ st a st', p st = Except.ok (a, st') → st'.tokens <:+ st.tokens

/-- `pPure` leaves the token list unchanged. -/
theorem consumes_pPure {α : Type} (a : α) : Consumes (pPure a) := by
  intro st b st' h
  simp only [pPure, Except.ok.injEq, Prod.mk.injEq] at h
  rw [← h.2]

/-- A raising computation never succeeds. -/
theorem consumes_pFail {α : Type} (e : PError) : Consumes (pFail (α := α) e) := by
  intro st a st' h
  exact Except.noConfusion h

/-- Sequencing preserves the suffix frame property. -/
theorem consumes_pBind {α β : Type} {p : Parser α} {f : α → Parser β}
    (hp : Consumes p) (hf : ∀ a, Consumes (f a)) : Consumes (pBind p f) := by
  intro st b st' h
  unfold pBind at h
  cases hps : p st with
  | error e => rw [hps] at h; exact Except.noConfusion h
  | ok v =>
    rw [hps] at h
    obtain ⟨a, st1⟩ := v
    exact (hf a st1 b st' h).trans (hp st a st1 hps)

/-- Inspecting the lookahead does not touch the token list. -/
theorem consumes_withCurrent {α : Type} {f : Token → Parser α}
    (hf : ∀ tok, Consumes (f tok)) : Consumes (withCurrent f) := by
  intro st a st' h
  unfold withCurrent at h
  cases hc : st.token_atual with
  | none => rw [hc] at h; exact Except.noConfusion h
  | some tok => rw [hc] at h; exact hf tok st a st' h

/-- A branch over a decidable condition preserves the frame property. -/
theorem consumes_ite {c : Prop} [Decidable c] {α : Type} {p q : Parser α}
    (hp : Consumes p) (hq : Consumes q) : Consumes (if c then p else q) := by
  split
  · exact hp
  · exact hq

/-- `combinar` either fails or pops at most the front token. -/
theorem consumes_combinar (tipos : List String) : Consumes (combinar tipos) := by
  unfold combinar
  apply consumes_withCurrent
  intro tok st a st' h
  beta_reduce at h
  by_cases hc : (tipos.contains tok.1) = true
  · rw [if_pos hc] at h
    cases hts : st.tokens with
    | nil =>
      rw [hts] at h
      simp only [Except.ok.injEq, Prod.mk.injEq] at h
      rw [← h.2]
    | cons t ts =>
      rw [hts] at h
      simp only [Except.ok.injEq, Prod.mk.injEq] at h
      rw [← h.2]
      exact List.suffix_cons t ts
  · rw [if_neg hc] at h
    exact Except.noConfusion h

/-- `fator_body` preserves the frame property. -/
theorem consumes_fator_body {e : Parser (Option No)} (he : Consumes e) :
    Consumes (fator_body e) := by
  unfold fator_body
  apply consumes_withCurrent
  intro tok
  refine consumes_ite ?_ (consumes_ite ?_ (consumes_ite ?_ (consumes_ite ?_
    (consumes_ite ?_ (consumes_pPure _)))))
  · exact consumes_pBind (consumes_combinar _) fun _ => consumes_pPure _
  · exact consumes_pBind (consumes_combinar _) fun _ => consumes_pPure _
  · exact consumes_pBind (consumes_combinar _) fun _ =>
      consumes_pBind he fun _ =>
      consumes_pBind (consumes_combinar _) fun _ => consumes_pPure _
  · exact consumes_pBind (consumes_combinar _) fun _ => consumes_pPure _
  · exact consumes_pBind (consumes_combinar _) fun _ => consumes_pPure _

/-- The shared operator loop preserves the frame property. -/
theorem consumes_binop_loop_body {opKind : String} {subP : Parser (Option No)}
    {selfP : Option No → Parser (Option No)}
    (hsub : Consumes subP) (hself : ∀ e, Consumes (selfP e)) (esquerda : Option No) :
    Consumes (binop_loop_body opKind subP selfP esquerda) := by
  unfold binop_loop_body
  apply consumes_withCurrent
  intro tok
  refine consumes_ite ?_ (consumes_pPure _)
  exact consumes_pBind (consumes_combinar _) fun _ =>
    consumes_pBind hsub fun _ => hself _

/-- `atribuicao_body` preserves the frame property. -/
theorem consumes_atribuicao_body {e : Parser (Option No)} (he : Consumes e) :
    Consumes (atribuicao_body e) := by
  unfold atribuicao_body
  exact consumes_pBind (consumes_combinar _) fun _ =>
    consumes_pBind (consumes_combinar _) fun _ =>
    consumes_pBind he fun _ =>
    consumes_pBind (consumes_combinar _) fun _ => consumes_pPure _

/-- `decl_if_body` preserves the frame property. -/
theorem consumes_decl_if_body {e : Parser (Option No)} {d : Parser No}
    (he : Consumes e) (hd : Consumes d) : Consumes (decl_if_body e d) := by
  unfold decl_if_body
  refine consumes_pBind (consumes_combinar _) fun _ => ?_
  refine consumes_pBind (consumes_combinar _) fun _ => ?_
  refine consumes_pBind he fun _ => ?_
  refine consumes_pBind (consumes_combinar _) fun _ => ?_
  refine consumes_pBind (consumes_combinar _) fun _ => ?_
  refine consumes_pBind hd fun _ => ?_
  refine consumes_pBind (consumes_combinar _) fun _ => ?_
  apply consumes_withCurrent
  intro tok
  refine consumes_ite ?_ (consumes_pPure _)
  exact consumes_pBind (consumes_combinar _) fun _ =>
    consumes_pBind (consumes_combinar _) fun _ =>
    consumes_pBind hd fun _ =>
    consumes_pBind (consumes_combinar _) fun _ => consumes_pPure _

/-- `decl_while_body` preserves the frame property. -/
theorem consumes_decl_while_body {e : Parser (Option No)} {d : Parser No}
    (he : Consumes e) (hd : Consumes d) : Consumes (decl_while_body e d) := by
  unfold decl_while_body
  exact consumes_pBind (consumes_combinar _) fun _ =>
    consumes_pBind (consumes_combinar _) fun _ =>
    consumes_pBind he fun _ =>
    consumes_pBind (consumes_combinar _) fun _ =>
    consumes_pBind (consumes_combinar _) fun _ =>
    consumes_pBind hd fun _ =>
    consumes_pBind (consumes_combinar _) fun _ => consumes_pPure _

/-- `decl_print_body` preserves the frame property. -/
theorem consumes_decl_print_body {e : Parser (Option No)} (he : Consumes e) :
    Consumes (decl_print_body e) := by
  unfold decl_print_body
  exact consumes_pBind (consumes_combinar _) fun _ =>
    consumes_pBind (consumes_combinar _) fun _ =>
    consumes_pBind he fun _ =>
    consumes_pBind (consumes_combinar _) fun _ =>
    consumes_pBind (consumes_combinar _) fun _ => consumes_pPure _

/-- The variable-section loop preserves the frame property. -/
theorem consumes_secao_var_loop_body
    {selfP : List (Option No) → Parser (List (Option No))}
    (hself : ∀ ns, Consumes (selfP ns)) (nos : List (Option No)) :
    Consumes (secao_var_loop_body selfP nos) := by
  unfold secao_var_loop_body
  apply consumes_withCurrent
  intro tok
  refine consumes_ite ?_ (consumes_pPure _)
  exact consumes_pBind (consumes_combinar _) fun _ =>
    consumes_pBind (consumes_combinar _) fun _ =>
    consumes_pBind (consumes_combinar _) fun _ =>
    consumes_pBind (consumes_combinar _) fun _ =>
    consumes_pBind (consumes_combinar _) fun _ => hself _

/-- The statement loop preserves the frame property. -/
theorem consumes_declaracoes_loop_body {atrP ifP whP prP : Parser No}
    {selfP : List (Option No) → Parser (List (Option No))}
    (hatr : Consumes atrP) (hif : Consumes ifP) (hwh : Consumes whP)
    (hpr : Consumes prP) (hself : ∀ ns, Consumes (selfP ns))
    (nos : List (Option No)) :
    Consumes (declaracoes_loop_body atrP ifP whP prP selfP nos) := by
  unfold declaracoes_loop_body
  apply consumes_withCurrent
  intro tok
  refine consumes_ite ?_ (consumes_ite ?_ (consumes_ite ?_ (consumes_ite ?_
    (consumes_pPure _))))
  · exact consumes_pBind hatr fun _ => hself _
  · exact consumes_pBind hif fun _ => hself _
  · exact consumes_pBind hwh fun _ => hself _
  · exact consumes_pBind hpr fun _ => hself _

/-- `programa_body` preserves the frame property. -/
theorem consumes_programa_body {secP declsP : Parser No}
    (hsec : Consumes secP) (hdecls : Consumes declsP) :
    Consumes (programa_body secP declsP) := by
  unfold programa_body
  exact consumes_pBind (consumes_combinar _) fun _ =>
    consumes_pBind (consumes_combinar _) fun _ =>
    consumes_pBind (consumes_combinar _) fun _ =>
    consumes_pBind hsec fun _ =>
    consumes_pBind hdecls fun _ =>
    consumes_pBind (consumes_combinar _) fun _ => consumes_pPure _

/-- Every production of the recursive-descent parser, at every fuel,
has the suffix frame property. -/
theorem consumes_all : ∀ fuel : Nat,
    Consumes (fator fuel)
    ∧ (∀ e, Consumes (termo_loop fuel e))
    ∧ Consumes (termo fuel)
    ∧ (∀ e, Consumes (expr_simples_loop fuel e))
    ∧ Consumes (expr_simples fuel)
    ∧ (∀ e, Consumes (expr_loop fuel e))
    ∧ Consumes (expr fuel)
    ∧ Consumes (atribuicao fuel)
    ∧ Consumes (decl_if fuel)
    ∧ Consumes (decl_while fuel)
    ∧ Consumes (decl_print fuel)
    ∧ (∀ ns, Consumes (declaracoes_loop fuel ns))
    ∧ Consumes (declaracoes fuel)
    ∧ (∀ ns, Consumes (secao_var_loop fuel ns))
    ∧ Consumes (secao_var fuel)
    ∧ Consumes (programa fuel) := by
  intro fuel
  induction fuel with
  | zero =>
    simp only [fator, termo_loop, termo, expr_simples_loop, expr_simples, expr_loop,
      expr, atribuicao, decl_if, decl_while, decl_print, declaracoes_loop,
      declaracoes, secao_var_loop, secao_var, programa]
    exact ⟨consumes_pFail _, fun _ => consumes_pFail _, consumes_pFail _,
      fun _ => consumes_pFail _, consumes_pFail _, fun _ => consumes_pFail _,
      consumes_pFail _, consumes_pFail _, consumes_pFail _, consumes_pFail _,
      consumes_pFail _, fun _ => consumes_pFail _, consumes_pFail _,
      fun _ => consumes_pFail _, consumes_pFail _, consumes_pFail _⟩
  | succ fuel ih =>
    obtain ⟨hfa, htl, hte, hsl, hse, hel, hex, hat, hif, hwh, hpr, hdl, hde, hvl, hsv, _⟩ := ih
    have hfa' : Consumes (fator (fuel + 1)) := by
      simp only [fator]; exact consumes_fator_body hex
    have htl' : ∀ e, Consumes (termo_loop (fuel + 1) e) := by
      intro e; simp only [termo_loop]; exact consumes_binop_loop_body hfa htl e
    have hte' : Consumes (termo (fuel + 1)) := by
      simp only [termo]; exact consumes_pBind hfa htl
    have hsl' : ∀ e, Consumes (expr_simples_loop (fuel + 1) e) := by
      intro e; simp only [expr_simples_loop]; exact consumes_binop_loop_body hte hsl e
    have hse' : Consumes (expr_simples (fuel + 1)) := by
      simp only [expr_simples]; exact consumes_pBind hte hsl
    have hel' : ∀ e, Consumes (expr_loop (fuel + 1) e) := by
      intro e; simp only [expr_loop]; exact consumes_binop_loop_body hse hel e
    have hex' : Consumes (expr (fuel + 1)) := by
      simp only [expr]; exact consumes_pBind hse hel
    have hat' : Consumes (atribuicao (fuel + 1)) := by
      simp only [atribuicao]; exact consumes_atribuicao_body hex
    have hif' : Consumes (decl_if (fuel + 1)) := by
      simp only [decl_if]; exact consumes_decl_if_body hex hde
    have hwh' : Consumes (decl_while (fuel + 1)) := by
      simp only [decl_while]; exact consumes_decl_while_body hex hde
    have hpr' : Consumes (decl_print (fuel + 1)) := by
      simp only [decl_print]; exact consumes_decl_print_body hex
    have hdl' : ∀ ns, Consumes (declaracoes_loop (fuel + 1) ns) := by
      intro ns; simp only [declaracoes_loop]
      exact consumes_declaracoes_loop_body hat hif hwh hpr hdl ns
    have hde' : Consumes (declaracoes (fuel + 1)) := by
      simp only [declaracoes]; exact consumes_pBind (hdl []) fun _ => consumes_pPure _
    have hvl' : ∀ ns, Consumes (secao_var_loop (fuel + 1) ns) := by
      intro ns; simp only [secao_var_loop]; exact consumes_secao_var_loop_body hvl ns
    have hsv' : Consumes (secao_var (fuel + 1)) := by
      simp only [secao_var]; exact consumes_pBind (hvl []) fun _ => consumes_pPure _
    have hpg' : Consumes (programa (fuel + 1)) := by
      simp only [programa]; exact consumes_programa_body hsv hde
    exact ⟨hfa', htl', hte', hsl', hse', hel', hex', hat', hif', hwh', hpr',
      hdl', hde', hvl', hsv', hpg'⟩

/-- The `programa` production has the suffix frame property. -/
theorem consumes_programa (fuel : Nat) : Consumes (programa fuel) :=
  (consumes_all fuel).2.2.2.2.2.2.2.2.2.2.2.2.2.2.2

/-- No token of kind `WHITESPACE` ever appears in the scanner's output:
the emission site is guarded by the `WHITESPACE` filter. -/
theorem scan_no_whitespace :
    ∀ (fuel : Nat) (prev : Option Char) (s : List Char) (t : Token),
      t ∈ scan fuel prev s → t.1 ≠ "WHITESPACE" := by
  intro fuel
  induction fuel with
  | zero =>
    intro prev s t h
    simp [scan] at h
  | succ fuel ih =>
    intro prev s t h
    cases s with
    | nil => simp [scan] at h
    | cons c rest =>
      simp only [scan] at h
      split at h
      · exact ih _ _ _ h
      · split at h
        · exact ih _ _ _ h
        · next kind m hkind =>
          rcases List.mem_cons.mp h with h1 | h2
          · rw [h1]
            simpa using hkind
          · exact ih _ _ _ h2

/-!
The claim theorems.  Each claim of the frozen list gets one theorem; where
the claim fails on the code, a counterexample theorem exhibits the failure
at a concrete input and an amended theorem proves what actually holds.
-/

/-- C1, counterexample: the claim says that a source containing a position
where no token pattern matches (the `"@"`) makes the tokenizer fail with a
`LexicalError` rather than produce a token sequence.  In the code there is
no failure path at all: `re.finditer` skips the unmatched `"@"` of
`"x@y"` and a token sequence is produced. -/
theorem C1_counterexample :
    analisar_tokens "x@y" = [("IDENTIFIER", "x"), ("IDENTIFIER", "y")] := by
  decide

/-- C1, amended: the tokenizer never fails; a position where no pattern
matches is silently skipped, so `"@"` alone yields the empty token
sequence and in `"var @ x"` the `"@"` simply disappears between the
surrounding tokens. -/
theorem C1_amended :
    analisar_tokens "@" = [] ∧
      analisar_tokens "var @ x" = [("VAR", "var"), ("IDENTIFIER", "x")] := by
  constructor
  · decide
  · decide

/-- C2, counterexample: the claim says no token of the comment kind is ever
emitted, but the code filters only `WHITESPACE`, so the source `"/*a*/"`
produces a `MULTILINE_COMMENT` token in the output sequence. -/
theorem C2_counterexample :
    analisar_tokens "/*a*/" = [("MULTILINE_COMMENT", "/*a*/")] := by
  decide

/-- C2, amended: for every source text, no token of kind `WHITESPACE`
appears in the tokenizer's output (whitespace is recognized but
discarded); comment tokens, by contrast, are emitted (see the
counterexample). -/
theorem C2_no_whitespace (codigo_fonte : String) (t : Token)
    (h : t ∈ analisar_tokens codigo_fonte) : t.1 ≠ "WHITESPACE" :=
  scan_no_whitespace _ _ _ t h

/-- Witness for C2 at a concrete input. -/
theorem C2_no_whitespace_witness :
    (("IDENTIFIER", "x") : Token) ∈ analisar_tokens "x" ∧
      (("IDENTIFIER", "x") : Token).1 ≠ "WHITESPACE" :=
  ⟨by decide, C2_no_whitespace "x" ("IDENTIFIER", "x") (by decide)⟩

/-- C3, counterexample: the claim says tokenizing `"program"` yields one
`PROGRAM` token; in the code the keyword pattern is `\bprograma\b`
(Portuguese spelling), so `"program"` yields one `IDENTIFIER` token. -/
theorem C3_counterexample :
    analisar_tokens "program" = [("IDENTIFIER", "program")] := by
  decide

/-- C3, amended: tokenizing `"programa"` yields exactly one `PROGRAM`
token (not an identifier), while `"programme"` — and likewise
`"program"`, see the counterexample — yields exactly one `IDENTIFIER`
token carrying its own text. -/
theorem C3_amended :
    analisar_tokens "programa" = [("PROGRAM", "programa")] ∧
      analisar_tokens "programme" = [("IDENTIFIER", "programme")] := by
  constructor
  · decide
  · decide

/-- C4 (code bug): when the current token is none of `IDENTIFIER`,
`NUMBER`, `LPAREN`, `TRUE`, `FALSE`, `Analisador.fator` falls through all
its branches and returns Python `None` with the state untouched — it does
not raise `SyntaxError` as the claim (and the spec's stated intent)
requires. -/
theorem C4_fator_returns_none (fuel : Nat) (st : PState) (tok : Token)
    (hc : st.token_atual = some tok)
    (h1 : tok.1 ≠ "IDENTIFIER") (h2 : tok.1 ≠ "NUMBER") (h3 : tok.1 ≠ "LPAREN")
    (h4 : tok.1 ≠ "TRUE") (h5 : tok.1 ≠ "FALSE") :
    fator (fuel + 1) st = Except.ok (none, st) := by
  simp only [fator]
  unfold fator_body withCurrent
  rw [hc]
  simp [h1, h2, h3, h4, h5, pPure]

/-- Witness for C4: `fator` facing a `SEMICOLON` token returns `None`. -/
theorem C4_fator_returns_none_witness :
    fator 1 { tokens := [], token_atual := some (("SEMICOLON", ";") : Token) }
      = Except.ok (none, { tokens := [], token_atual := some (("SEMICOLON", ";") : Token) }) :=
  C4_fator_returns_none 0 _ ("SEMICOLON", ";") rfl (by decide) (by decide) (by decide)
    (by decide) (by decide)

/-- C5 (code bug): invoking the parser on the empty token sequence does
not produce the explicit `SyntaxError` the claim requires:
`Analisador.__init__` runs `self.tokens.pop(0)`, which on an empty list
raises an uncontrolled `IndexError`. -/
theorem C5_empty_tokens_indexError :
    analisador_init [] = Except.error PError.indexError ∧
      analisar [] 30 = Except.error PError.indexError := by
  constructor
  · rfl
  · rfl

/-- C6, counterexample: the claim says a complete parser run leaves the
caller's token sequence unchanged.  Parsing the four tokens of
`"programa x { }"` runs to successful completion, yet the caller's
(aliased, destructively popped) list ends empty — not equal to the
nonempty input sequence. -/
theorem C6_counterexample :
    analisar (analisar_tokens "programa x \x7b \x7d") 30
      = Except.ok (No.mk "PROGRAMA"
          [some (No.mk "SECAO_VAR" [] none), some (No.mk "DECLARACOES" [] none)]
          (some (Folha.str "x")),
        { tokens := [], token_atual := none })
    ∧ analisar_tokens "programa x \x7b \x7d" ≠ ([] : List Token) := by
  constructor
  · rfl
  · decide

/-- C6, amended: parsing destructively consumes the caller's token
sequence from the front (each read token is popped), so after a
successful run the caller's list holds a suffix of the original sequence
— every token still in it is an unread original token, and no token value
is ever mutated. -/
theorem C6_amended (tokens : List Token) (fuel : Nat) (n : No) (stF : PState)
    (h : analisar tokens fuel = Except.ok (n, stF)) : stF.tokens <:+ tokens := by
  unfold analisar analisador_init at h
  cases tokens with
  | nil => exact Except.noConfusion h
  | cons t ts =>
    exact (consumes_programa fuel { tokens := ts, token_atual := some t } n stF h).trans
      (List.suffix_cons t ts)

/-- Witness for C6 at a concrete input. -/
theorem C6_amended_witness :
    ([] : List Token) <:+ analisar_tokens "programa teste \x7b \x7d" :=
  C6_amended (analisar_tokens "programa teste \x7b \x7d") 30
    (No.mk "PROGRAMA"
      [some (No.mk "SECAO_VAR" [] none), some (No.mk "DECLARACOES" [] none)]
      (some (Folha.str "teste")))
    { tokens := [], token_atual := none } rfl

/-- C7, counterexample: the claim says parsing the expression token
sequence of `"10 - 3 - 2"` yields the left-leaning node; in fact running
the `expr` production on exactly those five tokens exhausts the sequence
after consuming the final `2`, the lookahead becomes `None`, and the next
operator-kind check raises `TypeError` — no node is returned. -/
theorem C7_counterexample :
    parse_expr (analisar_tokens "10 - 3 - 2") 30 = Except.error PError.typeError := by
  rfl

/-- C7, amended: with the expression followed by its statement terminator
(as it always is inside a program — here the `";"` of `"10 - 3 - 2;"`),
the `expr` production folds the same-tier `-` applications to the left:
the result is an `EXPR` node tagged `-` whose left child is itself a `-`
node over the literals `10` and `3` and whose right child is the literal
`2`. -/
theorem C7_amended :
    parse_expr (analisar_tokens "10 - 3 - 2;") 30
      = Except.ok (some (No.mk "EXPR"
          [some (No.mk "EXPR"
            [some (No.mk "NUMERO" [] (some (Folha.str "10"))),
             some (No.mk "NUMERO" [] (some (Folha.str "3")))]
            (some (Folha.str "-"))),
           some (No.mk "NUMERO" [] (some (Folha.str "2")))]
          (some (Folha.str "-"))),
        { tokens := [], token_atual := some (("SEMICOLON", ";") : Token) }) := by
  rfl

/-- C8, counterexample: as for C7, running the `expr` production on
exactly the five tokens of `"1 + 2 * 3"` walks off the end of the
sequence and raises `TypeError` instead of returning a node. -/
theorem C8_counterexample :
    parse_expr (analisar_tokens "1 + 2 * 3") 30 = Except.error PError.typeError := by
  rfl

/-- C8, amended: with the terminator present (`"1 + 2 * 3;"`), the
multiplicative tier binds tighter than the additive one: the result is a
`+` node whose right child is a `*` node over the literals `2` and `3`,
not the reverse nesting. -/
theorem C8_amended :
    parse_expr (analisar_tokens "1 + 2 * 3;") 30
      = Except.ok (some (No.mk "EXPR"
          [some (No.mk "NUMERO" [] (some (Folha.str "1"))),
           some (No.mk "EXPR"
            [some (No.mk "NUMERO" [] (some (Folha.str "2"))),
             some (No.mk "NUMERO" [] (some (Folha.str "3")))]
            (some (Folha.str "*")))]
          (some (Folha.str "+"))),
        { tokens := [], token_atual := some (("SEMICOLON", ";") : Token) }) := by
  rfl

/-- C9, counterexample: the claim says the fragment tokenizes to exactly
17 tokens; counting the output of the code's tokenizer gives a different
number. -/
theorem C9_counterexample :
    (analisar_tokens "var x:int; x=10; if (x == 10) \x7b print(x); \x7d").length ≠ 17 := by
  decide

/-- C9, amended: the fragment
`"var x:int; x=10; if (x == 10) { print(x); }"` tokenizes to exactly 22
tokens. -/
theorem C9_amended :
    (analisar_tokens "var x:int; x=10; if (x == 10) \x7b print(x); \x7d").length = 22 := by
  decide

/-- C10 (confirmed): the tokens of `"programa x {"` form a nonempty strict
prefix of the tokens of the valid program `"programa x { }"` (which
parses successfully); running the parser on that prefix exhausts the
token sequence mid-production, the lookahead becomes the `None` sentinel,
and the next kind check subscripts `None` — a `TypeError`, not a
`SyntaxError`. -/
theorem C10_prefix_typeError :
    analisar_tokens "programa x \x7b" ≠ ([] : List Token)
    ∧ analisar_tokens "programa x \x7b" ++ [(("RBRACE", "\x7d") : Token)]
        = analisar_tokens "programa x \x7b \x7d"
    ∧ (∃ r, analisar (analisar_tokens "programa x \x7b \x7d") 30 = Except.ok r)
    ∧ analisar (analisar_tokens "programa x \x7b") 30 = Except.error PError.typeError := by
  refine ⟨by decide, by decide, ⟨_, rfl⟩, rfl⟩

end AnalisadorSintatico
